import Mathlib

/-!
Verification of the reasoning-graph core of `src/main.py`:
the data model (`NodeType`, `EdgeType`, `Node`, `Edge`, `ReasoningGraph`,
`Output`), the pydantic-style construction/validation rules, and the
cytoscape export transform built in the `__main__` block.

Strings are Lean `String`s; Python `str.strip()` is modelled by
`pyStrip` (drop leading and trailing whitespace characters, written over
the character list so the kernel can evaluate it); the optional float
`confidence` is modelled as `Option ℚ`
(the constants the bounds compare against, 0.0 and 1.0, are exact).
Fallible pydantic construction is modelled by `Except`.
-/

namespace LLM2Graph

/-- `NodeType(str, Enum)` from `src/main.py` lines 14-17. -/
inductive NodeType where
  | CLAIM
  | EVIDENCE
  | ASSUMPTION
deriving DecidableEq, Repr

/-- The `.value` string of each `NodeType` member. -/
def NodeType.toStr : NodeType → String
  | .CLAIM => "Claim"
  | .EVIDENCE => "Evidence"
  | .ASSUMPTION => "Assumption"

/-- `EdgeType(str, Enum)` from `src/main.py` lines 20-24. -/
inductive EdgeType where
  | SUPPORTS
  | CONTRADICTS
  | DEPENDS_ON
  | IMPLIES
deriving DecidableEq, Repr

/-- The `.value` string of each `EdgeType` member. -/
def EdgeType.toStr : EdgeType → String
  | .SUPPORTS => "supports"
  | .CONTRADICTS => "contradicts"
  | .DEPENDS_ON => "depends-on"
  | .IMPLIES => "implies"

/-- Python `str.strip()` with no argument: remove leading and trailing
whitespace. -/
def pyStrip (s : String) : String :=
  ⟨((s.data.dropWhile Char.isWhitespace).reverse.dropWhile Char.isWhitespace).reverse⟩

/-- A validated `Node` (`src/main.py` lines 27-48): by the time a pydantic
`Node` exists, its `id` has been stripped and checked non-empty, `text` has
passed `min_length=1`, and `confidence` (when present) is inside `[0,1]`. -/
structure Node where
  id : String
  type : NodeType
  text : String
  source : Option String
  confidence : Option ℚ
deriving DecidableEq, Repr

/-- The field-level validation failures a `Node` construction can raise
(`ValueError "id must be non-empty"`, `min_length=1` on `text`,
`ge=0.0`/`le=1.0` on `confidence`). -/
inductive NodeError where
  | emptyId
  | emptyText
  | confidenceOutOfRange
deriving DecidableEq, Repr

/-- Pydantic construction of a `Node` (`src/main.py` lines 27-48): the
`id_not_empty` field validator strips `id` and rejects an empty result,
storing the stripped value; `text` must satisfy `min_length=1`; a present
`confidence` must satisfy `ge=0.0` and `le=1.0`. Fields are checked in
declaration order. -/
def Node.make (id : String) (type : NodeType) (text : String)
    (source : Option String) (confidence : Option ℚ) : Except NodeError Node :=
  let v := pyStrip id
  if v = "" then .error .emptyId
  else if text.length < 1 then .error .emptyText
  else
    match confidence with
    | none => .ok ⟨v, type, text, source, none⟩
    | some c =>
      if 0 ≤ c ∧ c ≤ 1 then .ok ⟨v, type, text, source, some c⟩
      else .error .confidenceOutOfRange

/-- `Edge` (`src/main.py` lines 51-54): a bare (source, target, type)
triple with no field-local invariant. -/
structure Edge where
  source : String
  target : String
  type : EdgeType
deriving DecidableEq, Repr

/-- A validated `ReasoningGraph` (`src/main.py` lines 57-91). -/
structure ReasoningGraph where
  nodes : List Node
  edges : List Edge
deriving DecidableEq, Repr

/-- The graph-level validation failures `validate_graph` can raise. -/
inductive GraphError where
  | duplicateNodeIds
  | edgeSourceNotFound (s : String)
  | edgeTargetNotFound (t : String)
deriving DecidableEq, Repr

/-- The edge loop of `validate_graph` (`src/main.py` lines 68-72): for each
edge in order, fail if its `source` is not among the node ids, then fail if
its `target` is not. -/
def checkEdges (ids : List String) : List Edge → Except GraphError Unit
  | [] => .ok ()
  | e :: rest =>
    if e.source ∉ ids then .error (GraphError.edgeSourceNotFound e.source)
    else if e.target ∉ ids then .error (GraphError.edgeTargetNotFound e.target)
    else checkEdges ids rest

/-- `ReasoningGraph.validate_graph` (`src/main.py` lines 61-91): collect the
node ids, fail with the duplicate-id error when `len(ids) != len(set(ids))`,
then run the edge loop; the commented-out semantic edge/endpoint block
(lines 74-89) is dead code and is not modelled. On success the graph is
returned unchanged. -/
def validate_graph (nodes : List Node) (edges : List Edge) :
    Except GraphError ReasoningGraph :=
  let ids := nodes.map Node.id
  if ids.length ≠ ids.dedup.length then .error GraphError.duplicateNodeIds
  else
    match checkEdges ids edges with
    | .error err => .error err
    | .ok _ => .ok ⟨nodes, edges⟩

/-- `Output` (`src/main.py` lines 94-96): a `text` field with no constraint
beyond being a string, and a nested `ReasoningGraph`. -/
structure Output where
  text : String
  graph : ReasoningGraph
deriving DecidableEq, Repr

/-- Pydantic construction of an `Output` from raw `text` and the graph's
member lists: the nested `ReasoningGraph` is validated, and `text` is
accepted as-is — `src/main.py` line 95 attaches no `min_length` or
validator to it. -/
def Output.make (text : String) (nodes : List Node) (edges : List Edge) :
    Except GraphError Output :=
  match validate_graph nodes edges with
  | .error err => .error err
  | .ok g => .ok ⟨text, g⟩

/-- One entry of `cyto["elements"]["nodes"][i]["data"]`
(`src/main.py` lines 139-145). -/
structure NodeElementData where
  id : String
  label : String
  type : String
  source : Option String
  confidence : Option ℚ
deriving DecidableEq, Repr

/-- One entry of `cyto["elements"]["edges"][i]["data"]`
(`src/main.py` lines 151-156). -/
structure EdgeElementData where
  id : String
  source : String
  target : String
  type : String
deriving DecidableEq, Repr

/-- The whole `cyto` document (`src/main.py` lines 134-161). -/
structure CytoDoc where
  text : String
  nodeElements : List NodeElementData
  edgeElements : List EdgeElementData
deriving DecidableEq, Repr

/-- The node comprehension of the export (`src/main.py` lines 137-148):
`id`, `text` as `label`, the kind's string value as `type`, and
`source`/`confidence` passed through (`None` becomes JSON `null`). -/
def nodeElement (n : Node) : NodeElementData :=
  ⟨n.id, n.text, n.type.toStr, n.source, n.confidence⟩

/-- The edge comprehension of the export (`src/main.py` lines 149-159):
the synthesized id is the f-string `kind ":" source "->" target`. -/
def edgeElement (e : Edge) : EdgeElementData :=
  ⟨e.type.toStr ++ ":" ++ e.source ++ "->" ++ e.target,
   e.source, e.target, e.type.toStr⟩

/-- The export transform (`src/main.py` lines 134-161): the `cyto` document
built from a validated `Output`. -/
def cyto (out : Output) : CytoDoc :=
  ⟨out.text,
   out.graph.nodes.map nodeElement,
   out.graph.edges.map edgeElement⟩

/-! ### Helper lemmas -/

/-- `len(ids) == len(set(ids))` holds exactly when the list has no
duplicates. -/
lemma dedup_length_eq_iff (l : List String) : l.dedup.length = l.length ↔ l.Nodup := by
  constructor
  · intro h
    have he : l.dedup = l := l.dedup_sublist.eq_of_length h
    rw [← he]
    exact l.nodup_dedup
  · intro h
    rw [h.dedup]

/-- The edge loop succeeds exactly when every edge's endpoints are known
node ids. -/
lemma checkEdges_ok_iff (ids : List String) (es : List Edge) :
    checkEdges ids es = .ok () ↔ ∀ e ∈ es, e.source ∈ ids ∧ e.target ∈ ids := by
  induction es with
  | nil => simp [checkEdges]
  | cons e rest ih =>
    by_cases hs : e.source ∈ ids
    · by_cases ht : e.target ∈ ids
      · simp [checkEdges, hs, ht, ih]
      · simp [checkEdges, hs, ht]
    · simp [checkEdges, hs]

/-- Any failure of the edge loop names a missing id, as an
`edgeSourceNotFound` or an `edgeTargetNotFound`. -/
lemma checkEdges_error_shape (ids : List String) (es : List Edge) (err : GraphError)
    (h : checkEdges ids es = .error err) :
    ∃ m, m ∉ ids ∧
      (err = GraphError.edgeSourceNotFound m ∨ err = GraphError.edgeTargetNotFound m) := by
  induction es with
  | nil => simp [checkEdges] at h
  | cons e rest ih =>
    by_cases hs : e.source ∈ ids
    · by_cases ht : e.target ∈ ids
      · rw [show checkEdges ids (e :: rest) = checkEdges ids rest by
          simp [checkEdges, hs, ht]] at h
        exact ih h
      · simp [checkEdges, hs, ht] at h
        exact ⟨e.target, ht, Or.inr h.symm⟩
    · simp [checkEdges, hs] at h
      exact ⟨e.source, hs, Or.inl h.symm⟩

/-- With a duplicate id, `validate_graph` fails with the duplicate-id
error before looking at any edge. -/
lemma validate_graph_of_not_nodup (nodes : List Node) (edges : List Edge)
    (h : ¬ (nodes.map Node.id).Nodup) :
    validate_graph nodes edges = .error GraphError.duplicateNodeIds := by
  have hne : ¬ (nodes.map Node.id).dedup.length = nodes.length := fun hlen =>
    h ((dedup_length_eq_iff _).mp (by simpa using hlen))
  simp [validate_graph]
  intro hc
  exact absurd hc.symm hne

/-- With pairwise-distinct ids, `validate_graph` is decided by the edge
loop. -/
lemma validate_graph_nodup (nodes : List Node) (edges : List Edge)
    (h : (nodes.map Node.id).Nodup) :
    validate_graph nodes edges =
      match checkEdges (nodes.map Node.id) edges with
      | .error err => .error err
      | .ok _ => .ok ⟨nodes, edges⟩ := by
  have hlen : (nodes.map Node.id).dedup.length = (nodes.map Node.id).length :=
    (dedup_length_eq_iff _).mpr h
  simp [validate_graph, hlen]

/-- Pydantic's `min_length=1` on a string fails exactly on the empty
string. -/
lemma string_length_lt_one_iff (s : String) : s.length < 1 ↔ s = "" := by
  cases s with
  | mk data =>
    constructor
    · intro h
      have hd : data = [] := List.length_eq_zero.mp (Nat.lt_one_iff.mp h)
      subst hd
      rfl
    · intro h
      rw [h]
      decide

/-- A successfully constructed node stores the stripped input id. -/
lemma node_make_id_eq (id : String) (type : NodeType) (text : String)
    (source : Option String) (confidence : Option ℚ) (n : Node)
    (h : Node.make id type text source confidence = .ok n) : n.id = pyStrip id := by
  by_cases hid : pyStrip id = ""
  · simp [Node.make, hid] at h
  · by_cases hlen : text.length < 1
    · simp [Node.make, hid, hlen] at h
    · cases confidence with
      | none =>
        simp [Node.make, hid, hlen] at h
        rw [← h]
      | some c =>
        by_cases hc : 0 ≤ c ∧ c ≤ 1
        · simp [Node.make, hid, hlen, hc] at h
          rw [← h]
        · simp [Node.make, hid, hlen, hc] at h

/-! ### Claim theorems -/

/-- **C1**: `validate_graph` fails with the duplicate-id error exactly when
the node sequence contains two entries with identical (stored, i.e. already
stripped) ids; with pairwise-distinct ids this error is never raised. -/
theorem validate_graph_duplicate_error_iff (nodes : List Node) (edges : List Edge) :
    validate_graph nodes edges = .error GraphError.duplicateNodeIds ↔
      ¬ (nodes.map Node.id).Nodup := by
  constructor
  · intro h hnodup
    rw [validate_graph_nodup nodes edges hnodup] at h
    cases hc : checkEdges (nodes.map Node.id) edges with
    | ok u =>
      cases u
      simp [hc] at h
    | error err =>
      simp [hc] at h
      obtain ⟨m, _, hm⟩ := checkEdges_error_shape _ _ _ hc
      rw [h] at hm
      rcases hm with h1 | h1 <;> cases h1
  · exact validate_graph_of_not_nodup nodes edges

/-- **C1** at a concrete input: two nodes sharing the id `c1` are rejected
with the duplicate-id error. -/
theorem validate_graph_duplicate_error_iff_witness :
    validate_graph
      [Node.mk "c1" NodeType.CLAIM "a" none none,
       Node.mk "c1" NodeType.EVIDENCE "b" none none] [] =
      .error GraphError.duplicateNodeIds :=
  (validate_graph_duplicate_error_iff
    [Node.mk "c1" NodeType.CLAIM "a" none none,
     Node.mk "c1" NodeType.EVIDENCE "b" none none] []).mpr (by decide)

/-- **C2**: given pairwise-distinct node ids, if some edge's source or
target is not among the node ids, `validate_graph` fails with a dangling
reference error naming a missing id; if every edge's endpoints are present,
no dangling-reference error is raised. -/
theorem validate_graph_dangling_reference (nodes : List Node) (edges : List Edge)
    (hnodup : (nodes.map Node.id).Nodup) :
    ((∃ e ∈ edges, e.source ∉ nodes.map Node.id ∨ e.target ∉ nodes.map Node.id) →
      ∃ m, m ∉ nodes.map Node.id ∧
        (validate_graph nodes edges = .error (GraphError.edgeSourceNotFound m) ∨
         validate_graph nodes edges = .error (GraphError.edgeTargetNotFound m)))
    ∧ ((∀ e ∈ edges, e.source ∈ nodes.map Node.id ∧ e.target ∈ nodes.map Node.id) →
      ∀ m, validate_graph nodes edges ≠ .error (GraphError.edgeSourceNotFound m) ∧
           validate_graph nodes edges ≠ .error (GraphError.edgeTargetNotFound m)) := by
  have hv := validate_graph_nodup nodes edges hnodup
  constructor
  · intro hdang
    cases hc : checkEdges (nodes.map Node.id) edges with
    | ok u =>
      exfalso
      cases u
      have hall := (checkEdges_ok_iff _ _).mp hc
      obtain ⟨e, he, hor⟩ := hdang
      rcases hor with h | h
      · exact h (hall e he).1
      · exact h (hall e he).2
    | error err =>
      obtain ⟨m, hm, herr⟩ := checkEdges_error_shape _ _ _ hc
      refine ⟨m, hm, ?_⟩
      rw [hv]
      rcases herr with h | h
      · left; simp [hc, h]
      · right; simp [hc, h]
  · intro hall m
    have hok : checkEdges (nodes.map Node.id) edges = .ok () :=
      (checkEdges_ok_iff _ _).mpr hall
    rw [hv]
    simp [hok]

/-- **C2** at a concrete input: the edge source `e9` is absent from the
node ids, and validation reports it as a missing id. -/
theorem validate_graph_dangling_reference_witness :
    ∃ m, m ∉ [Node.mk "c1" NodeType.CLAIM "t" none none].map Node.id ∧
      (validate_graph [Node.mk "c1" NodeType.CLAIM "t" none none]
          [Edge.mk "e9" "c1" EdgeType.SUPPORTS] =
            .error (GraphError.edgeSourceNotFound m) ∨
       validate_graph [Node.mk "c1" NodeType.CLAIM "t" none none]
          [Edge.mk "e9" "c1" EdgeType.SUPPORTS] =
            .error (GraphError.edgeTargetNotFound m)) :=
  (validate_graph_dangling_reference [Node.mk "c1" NodeType.CLAIM "t" none none]
      [Edge.mk "e9" "c1" EdgeType.SUPPORTS] (by decide)).1
    ⟨Edge.mk "e9" "c1" EdgeType.SUPPORTS, by decide, Or.inl (by decide)⟩

/-- **C3** counterexample: `Output` attaches no constraint to `text`
(`src/main.py` line 95), so an `Output` whose `text` is the empty string is
accepted, contradicting the claim that it is rejected. -/
theorem output_empty_text_accepted :
    Output.make "" [Node.mk "c1" NodeType.CLAIM "off-by-one bug" none none] [] =
      .ok (Output.mk ""
        (ReasoningGraph.mk [Node.mk "c1" NodeType.CLAIM "off-by-one bug" none none] [])) :=
  rfl

/-- **C3** amended: `Output` construction performs no check on `text` at
all — for any `text`, the empty string included, it succeeds exactly when
the nested graph validates, and it returns that text unchanged. -/
theorem output_make_ignores_text (text : String) (nodes : List Node)
    (edges : List Edge) (g : ReasoningGraph)
    (h : validate_graph nodes edges = .ok g) :
    Output.make text nodes edges = .ok (Output.mk text g) := by
  simp [Output.make, h]

/-- **C3** amended, at a concrete input: an `Output` with empty `text` and
a valid one-node graph is constructed successfully. -/
theorem output_make_ignores_text_witness :
    Output.make "" [Node.mk "c2" NodeType.EVIDENCE "IndexError" none none] [] =
      .ok (Output.mk ""
        (ReasoningGraph.mk [Node.mk "c2" NodeType.EVIDENCE "IndexError" none none] [])) :=
  output_make_ignores_text "" [Node.mk "c2" NodeType.EVIDENCE "IndexError" none none] []
    (ReasoningGraph.mk [Node.mk "c2" NodeType.EVIDENCE "IndexError" none none] []) rfl

/-- **C4**: `Node` construction fails with the empty-identifier error when
`id` strips to the empty string, fails whenever `text` is empty (with the
empty-content error when the id is fine), and succeeds for a non-empty
stripped `id`, non-empty `text` and in-range or absent `confidence`. -/
theorem node_make_empty_checks (id : String) (type : NodeType) (text : String)
    (source : Option String) (confidence : Option ℚ) :
    (pyStrip id = "" → Node.make id type text source confidence = .error NodeError.emptyId)
    ∧ (text = "" → ∀ n, Node.make id type text source confidence ≠ .ok n)
    ∧ (pyStrip id ≠ "" → text = "" →
        Node.make id type text source confidence = .error NodeError.emptyText)
    ∧ (pyStrip id ≠ "" → text ≠ "" →
        (confidence = none ∨ ∃ c, confidence = some c ∧ 0 ≤ c ∧ c ≤ 1) →
        ∃ n, Node.make id type text source confidence = .ok n) := by
  refine ⟨?_, ?_, ?_, ?_⟩
  · intro h
    simp [Node.make, h]
  · intro h n
    by_cases hid : pyStrip id = ""
    · simp [Node.make, hid]
    · simp [Node.make, hid, h]
  · intro hid h
    simp [Node.make, hid, h]
  · intro hid ht hc
    have hlen : ¬ text.length < 1 := fun hlt =>
      ht ((string_length_lt_one_iff text).mp hlt)
    rcases hc with hnone | ⟨c, hceq, h0, h1⟩
    · subst hnone
      exact ⟨Node.mk (pyStrip id) type text source none, by simp [Node.make, hid, hlen]⟩
    · subst hceq
      exact ⟨Node.mk (pyStrip id) type text source (some c),
        by simp [Node.make, hid, hlen, h0, h1]⟩

/-- **C4** at concrete inputs: a whitespace-only id fails with the
empty-identifier error, an empty `text` fails with the empty-content error,
and a well-formed node is accepted. -/
theorem node_make_empty_checks_witness :
    Node.make "   " NodeType.CLAIM "t" none none = .error NodeError.emptyId ∧
    Node.make "c1" NodeType.CLAIM "" none none = .error NodeError.emptyText ∧
    ∃ n, Node.make "c1" NodeType.CLAIM "t" none none = .ok n :=
  ⟨(node_make_empty_checks "   " NodeType.CLAIM "t" none none).1 (by decide),
   (node_make_empty_checks "c1" NodeType.CLAIM "" none none).2.2.1 (by decide) rfl,
   (node_make_empty_checks "c1" NodeType.CLAIM "t" none none).2.2.2 (by decide) (by decide)
     (Or.inl rfl)⟩

/-- **C5**: with well-formed `id` and `text`, a present `confidence`
strictly below 0 or strictly above 1 is rejected with the out-of-range
error, while any value in the closed interval [0,1] — both endpoints
included — and an absent confidence are accepted. -/
theorem node_make_confidence_bounds (id : String) (type : NodeType) (text : String)
    (source : Option String) (c : ℚ)
    (hid : pyStrip id ≠ "") (htext : text ≠ "") :
    ((c < 0 ∨ 1 < c) →
        Node.make id type text source (some c) = .error NodeError.confidenceOutOfRange)
    ∧ (0 ≤ c → c ≤ 1 →
        Node.make id type text source (some c) =
          .ok (Node.mk (pyStrip id) type text source (some c)))
    ∧ Node.make id type text source none =
        .ok (Node.mk (pyStrip id) type text source none) := by
  have hlen : ¬ text.length < 1 := fun hlt =>
    htext ((string_length_lt_one_iff text).mp hlt)
  refine ⟨?_, ?_, ?_⟩
  · intro hout
    have hnc : ¬ (0 ≤ c ∧ c ≤ 1) := by
      rcases hout with h | h
      · exact fun hb => absurd h (not_lt.mpr hb.1)
      · exact fun hb => absurd h (not_lt.mpr hb.2)
    simp [Node.make, hid, hlen, hnc]
  · intro h0 h1
    simp [Node.make, hid, hlen, h0, h1]
  · simp [Node.make, hid, hlen]

/-- **C5** at concrete inputs: confidence 2 and -1 are rejected; 0, 1 and
absence are accepted. -/
theorem node_make_confidence_bounds_witness :
    Node.make "c1" NodeType.CLAIM "t" none (some 2) =
      .error NodeError.confidenceOutOfRange ∧
    Node.make "c1" NodeType.CLAIM "t" none (some (-1)) =
      .error NodeError.confidenceOutOfRange ∧
    Node.make "c1" NodeType.CLAIM "t" none (some 0) =
      .ok (Node.mk "c1" NodeType.CLAIM "t" none (some 0)) ∧
    Node.make "c1" NodeType.CLAIM "t" none (some 1) =
      .ok (Node.mk "c1" NodeType.CLAIM "t" none (some 1)) ∧
    Node.make "c1" NodeType.CLAIM "t" none none =
      .ok (Node.mk "c1" NodeType.CLAIM "t" none none) :=
  ⟨(node_make_confidence_bounds "c1" NodeType.CLAIM "t" none 2
      (by decide) (by decide)).1 (Or.inr (by decide)),
   (node_make_confidence_bounds "c1" NodeType.CLAIM "t" none (-1)
      (by decide) (by decide)).1 (Or.inl (by decide)),
   (node_make_confidence_bounds "c1" NodeType.CLAIM "t" none 0
      (by decide) (by decide)).2.1 (by decide) (by decide),
   (node_make_confidence_bounds "c1" NodeType.CLAIM "t" none 1
      (by decide) (by decide)).2.1 (by decide) (by decide),
   (node_make_confidence_bounds "c1" NodeType.CLAIM "t" none 0
      (by decide) (by decide)).2.2⟩

/-- **C6**: the commented-out semantic edge/endpoint compatibility block is
not enforced — any graph with pairwise-distinct node ids and fully
referenced edges validates, regardless of the node kinds at an edge's
endpoints. -/
theorem validate_graph_no_semantic_check (nodes : List Node) (edges : List Edge)
    (hnodup : (nodes.map Node.id).Nodup)
    (href : ∀ e ∈ edges, e.source ∈ nodes.map Node.id ∧ e.target ∈ nodes.map Node.id) :
    validate_graph nodes edges = .ok (ReasoningGraph.mk nodes edges) := by
  have hok : checkEdges (nodes.map Node.id) edges = .ok () :=
    (checkEdges_ok_iff _ _).mpr href
  rw [validate_graph_nodup nodes edges hnodup]
  simp [hok]

/-- **C6** at a concrete input: a `supports` edge between two `Claim`
nodes — forbidden by the disabled semantic rules — is accepted. -/
theorem validate_graph_no_semantic_check_witness :
    validate_graph
      [Node.mk "c1" NodeType.CLAIM "a" none none,
       Node.mk "c2" NodeType.CLAIM "b" none none]
      [Edge.mk "c1" "c2" EdgeType.SUPPORTS] =
      .ok (ReasoningGraph.mk
        [Node.mk "c1" NodeType.CLAIM "a" none none,
         Node.mk "c2" NodeType.CLAIM "b" none none]
        [Edge.mk "c1" "c2" EdgeType.SUPPORTS]) :=
  validate_graph_no_semantic_check
    [Node.mk "c1" NodeType.CLAIM "a" none none,
     Node.mk "c2" NodeType.CLAIM "b" none none]
    [Edge.mk "c1" "c2" EdgeType.SUPPORTS] (by decide) (by decide)

/-- **C7**: every exported edge's synthesized element id is the edge kind,
a colon, the source id, the separator `->`, and the target id; in
particular a `supports` edge from `e1` to `c1` exports to
`supports:e1->c1`. -/
theorem edge_element_id_format (e : Edge) :
    (edgeElement e).id = e.type.toStr ++ ":" ++ e.source ++ "->" ++ e.target ∧
    (edgeElement (Edge.mk "e1" "c1" EdgeType.SUPPORTS)).id = "supports:e1->c1" :=
  ⟨rfl, by decide⟩

/-- **C8**: the export emits the document's `text`, exactly one node
element per node — in input order, carrying the node's id, its text as
`label`, its kind's string as `type`, and its `source` and `confidence`
passed through (explicit `null`, i.e. `none`, when unset) — and exactly one
edge element per edge, in input order, with no deduplication and no
sorting. -/
theorem cyto_export_shape (out : Output) :
    (cyto out).text = out.text
    ∧ (cyto out).nodeElements.length = out.graph.nodes.length
    ∧ (cyto out).edgeElements.length = out.graph.edges.length
    ∧ (∀ i : ℕ, (cyto out).nodeElements[i]? =
        (out.graph.nodes[i]?).map (fun n =>
          NodeElementData.mk n.id n.text n.type.toStr n.source n.confidence))
    ∧ (∀ i : ℕ, (cyto out).edgeElements[i]? =
        (out.graph.edges[i]?).map (fun e =>
          EdgeElementData.mk (e.type.toStr ++ ":" ++ e.source ++ "->" ++ e.target)
            e.source e.target e.type.toStr)) := by
  refine ⟨rfl, by simp [cyto], by simp [cyto], ?_, ?_⟩
  · intro i
    simp only [cyto, List.getElem?_map]
    rfl
  · intro i
    simp only [cyto, List.getElem?_map]
    rfl

/-- **C9**: whenever graph validation succeeds, the resulting graph's node
and edge sequences are exactly the input sequences — nothing is re-ordered,
removed, deduplicated or modified. -/
theorem validate_graph_preserves_sequences (nodes : List Node) (edges : List Edge)
    (g : ReasoningGraph) (h : validate_graph nodes edges = .ok g) :
    g.nodes = nodes ∧ g.edges = edges := by
  by_cases hnodup : (nodes.map Node.id).Nodup
  · rw [validate_graph_nodup nodes edges hnodup] at h
    cases hc : checkEdges (nodes.map Node.id) edges with
    | ok u =>
      cases u
      simp [hc] at h
      rw [← h]
      exact ⟨rfl, rfl⟩
    | error err =>
      simp [hc] at h
  · rw [validate_graph_of_not_nodup nodes edges hnodup] at h
    cases h

/-- **C9** at a concrete input: validating a two-node, one-edge graph
returns the node and edge lists untouched. -/
theorem validate_graph_preserves_sequences_witness :
    (ReasoningGraph.mk
      [Node.mk "e1" NodeType.EVIDENCE "x" none none,
       Node.mk "c1" NodeType.CLAIM "y" none none]
      [Edge.mk "e1" "c1" EdgeType.SUPPORTS]).nodes =
        [Node.mk "e1" NodeType.EVIDENCE "x" none none,
         Node.mk "c1" NodeType.CLAIM "y" none none] ∧
    (ReasoningGraph.mk
      [Node.mk "e1" NodeType.EVIDENCE "x" none none,
       Node.mk "c1" NodeType.CLAIM "y" none none]
      [Edge.mk "e1" "c1" EdgeType.SUPPORTS]).edges =
        [Edge.mk "e1" "c1" EdgeType.SUPPORTS] :=
  validate_graph_preserves_sequences
    [Node.mk "e1" NodeType.EVIDENCE "x" none none,
     Node.mk "c1" NodeType.CLAIM "y" none none]
    [Edge.mk "e1" "c1" EdgeType.SUPPORTS]
    (ReasoningGraph.mk
      [Node.mk "e1" NodeType.EVIDENCE "x" none none,
       Node.mk "c1" NodeType.CLAIM "y" none none]
      [Edge.mk "e1" "c1" EdgeType.SUPPORTS]) rfl

/-- **C10**: every successfully constructed node stores the input id with
leading and trailing whitespace removed, and consequently two input ids
that differ only in surrounding whitespace collide at the graph level with
the duplicate-id error. -/
theorem node_make_normalizes_id (id : String) (type : NodeType) (text : String)
    (source : Option String) (confidence : Option ℚ) (n : Node)
    (h : Node.make id type text source confidence = .ok n) :
    n.id = pyStrip id ∧
    ∀ id2 type2 text2 source2 confidence2 n2,
      pyStrip id2 = pyStrip id →
      Node.make id2 type2 text2 source2 confidence2 = .ok n2 →
      ∀ edges, validate_graph [n, n2] edges = .error GraphError.duplicateNodeIds := by
  refine ⟨node_make_id_eq _ _ _ _ _ _ h, ?_⟩
  intro id2 type2 text2 source2 confidence2 n2 heq h2 edges
  apply validate_graph_of_not_nodup
  have e1 := node_make_id_eq _ _ _ _ _ _ h
  have e2 := node_make_id_eq _ _ _ _ _ _ h2
  simp [e1, e2, heq]

/-- **C10** at a concrete input: nodes constructed from `"c1"` and
`" c1 "` both store the id `c1`, and a graph holding both is rejected as a
duplicate. -/
theorem node_make_normalizes_id_witness :
    validate_graph
      [Node.mk "c1" NodeType.CLAIM "t" none none,
       Node.mk "c1" NodeType.EVIDENCE "u" none none] [] =
      .error GraphError.duplicateNodeIds :=
  (node_make_normalizes_id "c1" NodeType.CLAIM "t" none none
      (Node.mk "c1" NodeType.CLAIM "t" none none) rfl).2
    " c1 " NodeType.EVIDENCE "u" none none
    (Node.mk "c1" NodeType.EVIDENCE "u" none none) (by decide) rfl []

end LLM2Graph
